import Mathlib

/-!
Shallow embedding of the sensor wrapper layer of `src/src/system/sensors.rs`
(crate rutin-tizen): error taxonomy, per-descriptor event decoding, sensor
handle enumeration, listener lifecycle and the callback trampoline.

Native `f32` values are modelled by `F32` (a rational together with the
non-finite IEEE values), and the Rust saturating `as` casts to `i32`, `u32`
and `usize` are modelled explicitly.  Machine integers that only pass
through (the `u64` timestamp, opaque native handles) are modelled as `Nat`.
The native C API (`rutin_tizen_sys`) is an external collaborator whose
constants and call outcomes are not part of `src/`; its constants are
modelled from the spec, and call outcomes are passed in as explicit
parameters (status codes, output values).
-/

namespace Sensors

/-- Model of an `f32` value: a finite rational, or one of the non-finite
IEEE values.  Finite rationals abstract the finite floats; the claims
under study only copy values or cast them to integers. -/
inductive F32 where
  | finite (q : ℚ)
  | nan
  | inf
  | neginf
deriving DecidableEq, Repr

/-- Truncation of a rational toward zero, as in Rust float-to-int casts. -/
def ratTrunc (q : ℚ) : Int :=
  if 0 ≤ q then ⌊q⌋ else ⌈q⌉

def i32min : Int := -(2 ^ 31)

def i32max : Int := 2 ^ 31 - 1

def u32max : Int := 2 ^ 32 - 1

def usizeMax : Int := 2 ^ 64 - 1

/-- Rust `as i32` on an `f32`: saturating cast, NaN maps to 0. -/
def F32.toI32 : F32 → Int
  | .finite q => max i32min (min i32max (ratTrunc q))
  | .nan => 0
  | .inf => i32max
  | .neginf => i32min

/-- Rust `as u32` on an `f32`: saturating cast, NaN and negatives map to 0. -/
def F32.toU32 : F32 → Nat
  | .finite q => (max 0 (min u32max (ratTrunc q))).toNat
  | .nan => 0
  | .inf => u32max.toNat
  | .neginf => 0

/-- Rust `as usize` on an `f32` (64-bit target): saturating cast. -/
def F32.toUsize : F32 → Nat
  | .finite q => (max 0 (min usizeMax (ratTrunc q))).toNat
  | .nan => 0
  | .inf => usizeMax.toNat
  | .neginf => 0

/-- Modelled from the spec: native status codes of the external sensor C API
(the `rutin_tizen_sys` bindings are not under `src/`).  Zero is the success
code and the nine error enumerants are distinct nonzero codes; values follow
the platform's error-code scheme. -/
def SENSOR_ERROR_NONE : Int := 0

def SENSOR_ERROR_INVALID_PARAMETER : Int := -22

def SENSOR_ERROR_OUT_OF_MEMORY : Int := -12

def SENSOR_ERROR_IO_ERROR : Int := -5

def SENSOR_ERROR_PERMISSION_DENIED : Int := -13

def SENSOR_ERROR_NOT_SUPPORTED : Int := -1073741822

def SENSOR_ERROR_NO_DATA : Int := -61

def SENSOR_ERROR_NOT_NEED_CALIBRATION : Int := -37879805

def SENSOR_ERROR_OPERATION_FAILED : Int := -37879802

def SENSOR_ERROR_NOT_AVAILABLE : Int := -37879801

/-- The error taxonomy of the wrapper (enum `Error` in the source). -/
inductive Error where
  | InvalidParameter
  | OutOfMemory
  | IoError
  | PermissionDenied
  | NotSupported
  | NoData
  | NotNeedCalibration
  | OperationFailed
  | NotAvailable
  | Other (code : Int)
deriving DecidableEq, Repr

/-- Embedding of `Error::check`: maps a native status code to `Ok(())` or the
corresponding `Error` variant, with an exhaustive fallback to `Other`.  The
Rust `match` on integer constants is an ordered comparison chain. -/
def Error.check (i : Int) : Except Error Unit :=
  if i = SENSOR_ERROR_NONE then .ok ()
  else if i = SENSOR_ERROR_INVALID_PARAMETER then .error .InvalidParameter
  else if i = SENSOR_ERROR_OUT_OF_MEMORY then .error .OutOfMemory
  else if i = SENSOR_ERROR_IO_ERROR then .error .IoError
  else if i = SENSOR_ERROR_PERMISSION_DENIED then .error .PermissionDenied
  else if i = SENSOR_ERROR_NOT_SUPPORTED then .error .NotSupported
  else if i = SENSOR_ERROR_NO_DATA then .error .NoData
  else if i = SENSOR_ERROR_NOT_NEED_CALIBRATION then .error .NotNeedCalibration
  else if i = SENSOR_ERROR_OPERATION_FAILED then .error .OperationFailed
  else if i = SENSOR_ERROR_NOT_AVAILABLE then .error .NotAvailable
  else .error (.Other i)

/-- Modelled from the spec: native accuracy tags of `sensor_data_accuracy_e`
(small integer enumerants Undefined/Bad/Normal/Good/VeryGood; the bindings
are not under `src/`). -/
def SENSOR_DATA_ACCURACY_UNDEFINED : Int := -1

def SENSOR_DATA_ACCURACY_BAD : Int := 0

def SENSOR_DATA_ACCURACY_NORMAL : Int := 1

def SENSOR_DATA_ACCURACY_GOOD : Int := 2

def SENSOR_DATA_ACCURACY_VERYGOOD : Int := 3

/-- Sensor data accuracy (enum `Accuracy` in the source). -/
inductive Accuracy where
  | Undefined
  | Bad
  | Normal
  | Good
  | VeryGood
deriving DecidableEq, Repr

/-- Embedding of `impl From<sensor_data_accuracy_e> for Accuracy`: total over
all tags, unrecognized tags fall back to `Undefined`. -/
def Accuracy.fromTag (accuracy : Int) : Accuracy :=
  if accuracy = SENSOR_DATA_ACCURACY_UNDEFINED then .Undefined
  else if accuracy = SENSOR_DATA_ACCURACY_BAD then .Bad
  else if accuracy = SENSOR_DATA_ACCURACY_NORMAL then .Normal
  else if accuracy = SENSOR_DATA_ACCURACY_GOOD then .Good
  else if accuracy = SENSOR_DATA_ACCURACY_VERYGOOD then .VeryGood
  else .Undefined

/-- Raw native event record `sensor_event_s`: timestamp (u64 microseconds),
accuracy tag, and a fixed-capacity float array (capacity 16 on the
platform). -/
structure sensor_event_s where
  accuracy : Int
  timestamp : Nat
  values : Fin 16 → F32

/-- Builds the value array of a raw event from a list of finite rationals;
unused slots are zero, as for a zero-initialized C array. -/
def mkValues (l : List ℚ) : Fin 16 → F32 :=
  fun i => F32.finite (l.getD i.val 0)

/-- Accelerometer event record. -/
structure AccelerometerEvent where
  timestamp : Nat
  x : F32
  y : F32
  z : F32
deriving DecidableEq, Repr

/-- Embedding of `AccelerometerEvent::from_event`. -/
def AccelerometerEvent.from_event (data : sensor_event_s) : AccelerometerEvent :=
  { timestamp := data.timestamp
    x := data.values 0
    y := data.values 1
    z := data.values 2 }

/-- Gravity event record. -/
structure GravityEvent where
  timestamp : Nat
  x : F32
  y : F32
  z : F32
deriving DecidableEq, Repr

/-- Embedding of `GravityEvent::from_event`. -/
def GravityEvent.from_event (data : sensor_event_s) : GravityEvent :=
  { timestamp := data.timestamp
    x := data.values 0
    y := data.values 1
    z := data.values 2 }

/-- Linear acceleration event record. -/
structure LinearAccelerationEvent where
  timestamp : Nat
  x : F32
  y : F32
  z : F32
deriving DecidableEq, Repr

/-- Embedding of `LinearAccelerationEvent::from_event`. -/
def LinearAccelerationEvent.from_event (data : sensor_event_s) : LinearAccelerationEvent :=
  { timestamp := data.timestamp
    x := data.values 0
    y := data.values 1
    z := data.values 2 }

/-- Magnetic field event record. -/
structure MagneticEvent where
  timestamp : Nat
  x : F32
  y : F32
  z : F32
deriving DecidableEq, Repr

/-- Embedding of `MagneticEvent::from_event`. -/
def MagneticEvent.from_event (data : sensor_event_s) : MagneticEvent :=
  { timestamp := data.timestamp
    x := data.values 0
    y := data.values 1
    z := data.values 2 }

/-- Rotation vector event record. -/
structure RotationVectorEvent where
  timestamp : Nat
  accuracy : Accuracy
  x : F32
  y : F32
  z : F32
  w : F32
deriving DecidableEq, Repr

/-- Embedding of `RotationVectorEvent::from_event`. -/
def RotationVectorEvent.from_event (data : sensor_event_s) : RotationVectorEvent :=
  { timestamp := data.timestamp
    accuracy := Accuracy.fromTag data.accuracy
    x := data.values 0
    y := data.values 1
    z := data.values 2
    w := data.values 3 }

/-- Orientation event record. -/
structure OrientationEvent where
  timestamp : Nat
  azimuth : F32
  pitch : F32
  roll : F32
deriving DecidableEq, Repr

/-- Embedding of `OrientationEvent::from_event`. -/
def OrientationEvent.from_event (data : sensor_event_s) : OrientationEvent :=
  { timestamp := data.timestamp
    azimuth := data.values 0
    pitch := data.values 1
    roll := data.values 2 }

/-- Gyroscope event record. -/
structure GyroscopeEvent where
  timestamp : Nat
  x : F32
  y : F32
  z : F32
deriving DecidableEq, Repr

/-- Embedding of `GyroscopeEvent::from_event`. -/
def GyroscopeEvent.from_event (data : sensor_event_s) : GyroscopeEvent :=
  { timestamp := data.timestamp
    x := data.values 0
    y := data.values 1
    z := data.values 2 }

/-- Light event record. -/
structure LightEvent where
  timestamp : Nat
  level : F32
deriving DecidableEq, Repr

/-- Embedding of `LightEvent::from_event`. -/
def LightEvent.from_event (data : sensor_event_s) : LightEvent :=
  { timestamp := data.timestamp
    level := data.values 0 }

/-- Modelled from the spec: native proximity enumerants of
`sensor_proximity_e` (the bindings are not under `src/`); values follow the
spec's concrete scenario, raw 0 meaning near and raw 1 meaning far. -/
def SENSOR_PROXIMITY_NEAR : Nat := 0

def SENSOR_PROXIMITY_FAR : Nat := 1

/-- Proximity event (enum `ProximityEvent` in the source). -/
inductive ProximityEvent where
  | Near
  | Far
  | Unknown
deriving DecidableEq, Repr

/-- Embedding of `ProximityEvent::from_event`: matches `values[0] as u32`
against the native proximity enumerants, with fallback `Unknown`. -/
def ProximityEvent.from_event (data : sensor_event_s) : ProximityEvent :=
  if (data.values 0).toU32 = SENSOR_PROXIMITY_NEAR then .Near
  else if (data.values 0).toU32 = SENSOR_PROXIMITY_FAR then .Far
  else .Unknown

/-- Pressure event record. -/
structure PressureEvent where
  timestamp : Nat
  pressure : F32
deriving DecidableEq, Repr

/-- Embedding of `PressureEvent::from_event`. -/
def PressureEvent.from_event (data : sensor_event_s) : PressureEvent :=
  { timestamp := data.timestamp
    pressure := data.values 0 }

/-- Ultraviolet event record. -/
structure UltravioletEvent where
  timestamp : Nat
  uv_index : F32
deriving DecidableEq, Repr

/-- Embedding of `UltravioletEvent::from_event`. -/
def UltravioletEvent.from_event (data : sensor_event_s) : UltravioletEvent :=
  { timestamp := data.timestamp
    uv_index := data.values 0 }

/-- Temperature event record. -/
structure TemperatureEvent where
  timestamp : Nat
  temperature : F32
deriving DecidableEq, Repr

/-- Embedding of `TemperatureEvent::from_event`. -/
def TemperatureEvent.from_event (data : sensor_event_s) : TemperatureEvent :=
  { timestamp := data.timestamp
    temperature := data.values 0 }

/-- Humidity event record. -/
structure HumidityEvent where
  timestamp : Nat
  humidity : F32
deriving DecidableEq, Repr

/-- Embedding of `HumidityEvent::from_event`. -/
def HumidityEvent.from_event (data : sensor_event_s) : HumidityEvent :=
  { timestamp := data.timestamp
    humidity := data.values 0 }

/-- Heart-rate monitor event record. -/
structure HeartRateMonitorEvent where
  timestamp : Nat
  bpm : F32
deriving DecidableEq, Repr

/-- Embedding of `HeartRateMonitorEvent::from_event`. -/
def HeartRateMonitorEvent.from_event (data : sensor_event_s) : HeartRateMonitorEvent :=
  { timestamp := data.timestamp
    bpm := data.values 0 }

/-- Green LED heart-rate monitor event record. -/
structure HeartRateMonitorGreenLedEvent where
  timestamp : Nat
  green_light : F32
deriving DecidableEq, Repr

/-- Embedding of `HeartRateMonitorGreenLedEvent::from_event`. -/
def HeartRateMonitorGreenLedEvent.from_event (data : sensor_event_s) :
    HeartRateMonitorGreenLedEvent :=
  { timestamp := data.timestamp
    green_light := data.values 0 }

/-- Red LED heart-rate monitor event record. -/
structure HeartRateMonitorRedLedEvent where
  timestamp : Nat
  red_light : F32
deriving DecidableEq, Repr

/-- Embedding of `HeartRateMonitorRedLedEvent::from_event`. -/
def HeartRateMonitorRedLedEvent.from_event (data : sensor_event_s) :
    HeartRateMonitorRedLedEvent :=
  { timestamp := data.timestamp
    red_light := data.values 0 }

/-- Infrared LED heart-rate monitor event record. -/
structure HeartRateMonitorInfraredLedEvent where
  timestamp : Nat
  infrared_light : F32
deriving DecidableEq, Repr

/-- Embedding of `HeartRateMonitorInfraredLedEvent::from_event`. -/
def HeartRateMonitorInfraredLedEvent.from_event (data : sensor_event_s) :
    HeartRateMonitorInfraredLedEvent :=
  { timestamp := data.timestamp
    infrared_light := data.values 0 }

/-- Uncalibrated gyroscope event record. -/
structure UncalibratedGyroscopeEvent where
  timestamp : Nat
  x : F32
  y : F32
  z : F32
  x_drift : F32
  y_drift : F32
  z_drift : F32
deriving DecidableEq, Repr

/-- Embedding of `UncalibratedGyroscopeEvent::from_event`. -/
def UncalibratedGyroscopeEvent.from_event (data : sensor_event_s) :
    UncalibratedGyroscopeEvent :=
  { timestamp := data.timestamp
    x := data.values 0
    y := data.values 1
    z := data.values 2
    x_drift := data.values 3
    y_drift := data.values 4
    z_drift := data.values 5 }

/-- Uncalibrated magnetic field event record. -/
structure UncalibratedMagneticEvent where
  timestamp : Nat
  x : F32
  y : F32
  z : F32
  x_bias : F32
  y_bias : F32
  z_bias : F32
deriving DecidableEq, Repr

/-- Embedding of `UncalibratedMagneticEvent::from_event`. -/
def UncalibratedMagneticEvent.from_event (data : sensor_event_s) :
    UncalibratedMagneticEvent :=
  { timestamp := data.timestamp
    x := data.values 0
    y := data.values 1
    z := data.values 2
    x_bias := data.values 3
    y_bias := data.values 4
    z_bias := data.values 5 }

/-- Gyroscope rotation vector event record. -/
structure GyroscopeRotationVectorEvent where
  timestamp : Nat
  accuracy : Accuracy
  x : F32
  y : F32
  z : F32
  w : F32
deriving DecidableEq, Repr

/-- Embedding of `GyroscopeRotationVectorEvent::from_event`. -/
def GyroscopeRotationVectorEvent.from_event (data : sensor_event_s) :
    GyroscopeRotationVectorEvent :=
  { timestamp := data.timestamp
    accuracy := Accuracy.fromTag data.accuracy
    x := data.values 0
    y := data.values 1
    z := data.values 2
    w := data.values 3 }

/-- Geomagnetic rotation vector event record. -/
structure GeomagneticRotationVectorEvent where
  timestamp : Nat
  accuracy : Accuracy
  x : F32
  y : F32
  z : F32
  w : F32
deriving DecidableEq, Repr

/-- Embedding of `GeomagneticRotationVectorEvent::from_event`. -/
def GeomagneticRotationVectorEvent.from_event (data : sensor_event_s) :
    GeomagneticRotationVectorEvent :=
  { timestamp := data.timestamp
    accuracy := Accuracy.fromTag data.accuracy
    x := data.values 0
    y := data.values 1
    z := data.values 2
    w := data.values 3 }

/-- Significant motion event record. -/
structure SignificantMotionEvent where
  timestamp : Nat
  value : F32
deriving DecidableEq, Repr

/-- Embedding of `SignificantMotionEvent::from_event`. -/
def SignificantMotionEvent.from_event (data : sensor_event_s) : SignificantMotionEvent :=
  { timestamp := data.timestamp
    value := data.values 0 }

/-- Modelled from the spec: native enumerants of `sensor_hrm_batch_state_e`
(the bindings are not under `src/`); nine distinct integer codes. -/
def SENSOR_HRM_BATCH_STATE_NODATA_FLUSH : Int := -99

def SENSOR_HRM_BATCH_STATE_VERYLOW_RELIABILITY : Int := -10

def SENSOR_HRM_BATCH_STATE_LOW_RELIABILITY : Int := -8

def SENSOR_HRM_BATCH_STATE_DETACHED_AUTO : Int := -5

def SENSOR_HRM_BATCH_STATE_DETACHED : Int := -3

def SENSOR_HRM_BATCH_STATE_DETECT_MOVE : Int := -2

def SENSOR_HRM_BATCH_STATE_ATTACHED : Int := -1

def SENSOR_HRM_BATCH_STATE_NONE : Int := 0

def SENSOR_HRM_BATCH_STATE_OK : Int := 1

/-- Heart-rate monitor batch state; the `Unknown` fallback carries the raw
float value. -/
inductive HeartRateMonitorBatchState where
  | NoDataFlush
  | VeryLowReliability
  | LowReliability
  | DetachedAuto
  | Detached
  | DetectMove
  | Attached
  | None
  | Ok
  | Unknown (value : F32)
deriving DecidableEq, Repr

/-- Embedding of `impl From<f32> for HeartRateMonitorBatchState`: matches
`value as i32` against the native enumerants, with fallback
`Unknown(value)`. -/
def HeartRateMonitorBatchState.fromF32 (value : F32) : HeartRateMonitorBatchState :=
  if value.toI32 = SENSOR_HRM_BATCH_STATE_NODATA_FLUSH then .NoDataFlush
  else if value.toI32 = SENSOR_HRM_BATCH_STATE_VERYLOW_RELIABILITY then .VeryLowReliability
  else if value.toI32 = SENSOR_HRM_BATCH_STATE_LOW_RELIABILITY then .LowReliability
  else if value.toI32 = SENSOR_HRM_BATCH_STATE_DETACHED_AUTO then .DetachedAuto
  else if value.toI32 = SENSOR_HRM_BATCH_STATE_DETACHED then .Detached
  else if value.toI32 = SENSOR_HRM_BATCH_STATE_DETECT_MOVE then .DetectMove
  else if value.toI32 = SENSOR_HRM_BATCH_STATE_ATTACHED then .Attached
  else if value.toI32 = SENSOR_HRM_BATCH_STATE_NONE then .None
  else if value.toI32 = SENSOR_HRM_BATCH_STATE_OK then .Ok
  else .Unknown value

/-- Heart-rate monitor batch event record. -/
structure HeartRateMonitorBatchEvent where
  timestamp : Nat
  state : HeartRateMonitorBatchState
  bpm : F32
  r_to_r_interval : F32
deriving DecidableEq, Repr

/-- Embedding of `HeartRateMonitorBatchEvent::from_event`. -/
def HeartRateMonitorBatchEvent.from_event (data : sensor_event_s) :
    HeartRateMonitorBatchEvent :=
  { timestamp := data.timestamp
    state := HeartRateMonitorBatchState.fromF32 (data.values 0)
    bpm := data.values 1
    r_to_r_interval := data.values 2 }

/-- Green LED heart-rate monitor batch event record. -/
structure HeartRateMonitorGreenLedBatchEvent where
  timestamp : Nat
  green_light : F32
  x : F32
  y : F32
  z : F32
  index : Nat
deriving DecidableEq, Repr

/-- Embedding of `HeartRateMonitorGreenLedBatchEvent::from_event`; the
`index` field is `values[4] as usize`. -/
def HeartRateMonitorGreenLedBatchEvent.from_event (data : sensor_event_s) :
    HeartRateMonitorGreenLedBatchEvent :=
  { timestamp := data.timestamp
    green_light := data.values 0
    x := data.values 1
    y := data.values 2
    z := data.values 3
    index := (data.values 4).toUsize }

/-- Modelled from the spec: native enumerants of `sensor_pedometer_state_e`
(the bindings are not under `src/`); four distinct integer codes. -/
def SENSOR_PEDOMETER_STATE_UNKNOWN : Int := -1

def SENSOR_PEDOMETER_STATE_STOP : Int := 0

def SENSOR_PEDOMETER_STATE_WALK : Int := 1

def SENSOR_PEDOMETER_STATE_RUN : Int := 2

/-- Pedometer motion state. -/
inductive PedometerState where
  | Unknown
  | Stop
  | Walk
  | Run
deriving DecidableEq, Repr

/-- Embedding of `impl From<f32> for PedometerState`: matches `value as i32`
against the native enumerants, with fallback `Unknown`. -/
def PedometerState.fromF32 (value : F32) : PedometerState :=
  if value.toI32 = SENSOR_PEDOMETER_STATE_UNKNOWN then .Unknown
  else if value.toI32 = SENSOR_PEDOMETER_STATE_STOP then .Stop
  else if value.toI32 = SENSOR_PEDOMETER_STATE_WALK then .Walk
  else if value.toI32 = SENSOR_PEDOMETER_STATE_RUN then .Run
  else .Unknown

/-- Pedometer event record; the step counters are `values[i] as u32`. -/
structure PedometerEvent where
  timestamp : Nat
  steps : Nat
  walking_steps : Nat
  running_steps : Nat
  moving_distance : F32
  calories_burned : F32
  last_speed : F32
  last_stepping_frequency : F32
  last_state : PedometerState
deriving DecidableEq, Repr

/-- Embedding of `PedometerEvent::from_event`. -/
def PedometerEvent.from_event (data : sensor_event_s) : PedometerEvent :=
  { timestamp := data.timestamp
    steps := (data.values 0).toU32
    walking_steps := (data.values 1).toU32
    running_steps := (data.values 2).toU32
    moving_distance := data.values 3
    calories_burned := data.values 4
    last_speed := data.values 5
    last_stepping_frequency := data.values 6
    last_state := PedometerState.fromF32 (data.values 7) }

/-- Modelled from the spec: native enumerants of `sensor_sleep_state_e`
(the bindings are not under `src/`); three distinct integer codes. -/
def SENSOR_SLEEP_STATE_UNKNOWN : Int := -1

def SENSOR_SLEEP_STATE_WAKE : Int := 0

def SENSOR_SLEEP_STATE_SLEEP : Int := 1

/-- Sleep monitor state. -/
inductive SleepMonitorState where
  | Unknown
  | Wake
  | Sleep
deriving DecidableEq, Repr

/-- Embedding of `impl From<f32> for SleepMonitorState`: matches
`value as i32` against the native enumerants, with fallback `Unknown`. -/
def SleepMonitorState.fromF32 (value : F32) : SleepMonitorState :=
  if value.toI32 = SENSOR_SLEEP_STATE_UNKNOWN then .Unknown
  else if value.toI32 = SENSOR_SLEEP_STATE_WAKE then .Wake
  else if value.toI32 = SENSOR_SLEEP_STATE_SLEEP then .Sleep
  else .Unknown

/-- Sleep monitor event record. -/
structure SleepMonitorEvent where
  timestamp : Nat
  last_state : SleepMonitorState
deriving DecidableEq, Repr

/-- Embedding of `SleepMonitorEvent::from_event`. -/
def SleepMonitorEvent.from_event (data : sensor_event_s) : SleepMonitorEvent :=
  { timestamp := data.timestamp
    last_state := SleepMonitorState.fromF32 (data.values 0) }

/-- A non-owning sensor handle (`Sensor<T>` in the source); the opaque
native pointer `sensor_h` is modelled as a `Nat`. -/
structure Sensor where
  handle : Nat
deriving DecidableEq, Repr

/-- Embedding of `Sensor::get_list`.  The native enumeration call is an
external collaborator: its status code `ret`, the element count it writes
and the platform-allocated array it writes (as a function from index to
handle) are parameters.  Returns the result together with the number of
`libc::free` calls made on the platform array.  On success the handles at
indices `0 .. sensor_count` are copied out in order and the array is freed
once; a negative count gives the empty range, and the array is still freed.
On a non-success status the function returns before touching the array. -/
def Sensor.get_list (ret : Int) (sensor_count : Int) (arr : Nat → Nat) :
    Except Error (List Sensor) × Nat :=
  match Error.check ret with
  | .error e => (.error e, 0)
  | .ok _ =>
      (.ok (((List.range sensor_count.toNat).map fun i => Sensor.mk (arr i))), 1)

/-- Construction/destruction error of a listener (`SensorListenerError<U>`):
carries the triggering error together with the handler object, so the
caller never loses the handler. -/
structure SensorListenerError (U : Type) where
  error : Error
  handler : U
deriving DecidableEq, Repr

/-- The inner owned native-listener slot (`SensorListenerHandle`): an
`Option` around the opaque native handle, modelled as a `Nat`. -/
abbrev SensorListenerHandle : Type := Option Nat

/-- Embedding of `SensorListenerHandle::destroy`: takes the handle out of
the slot before the native call, so the slot is empty afterwards whether
the native destruction succeeds or fails; an empty slot is a no-op success.
`destroy_ret` is the status the native `sensor_destroy_listener` call would
return.  Returns the new slot, the result, and the number of native destroy
calls made (0 or 1). -/
def SensorListenerHandle.destroy (destroy_ret : Int) :
    SensorListenerHandle → SensorListenerHandle × Except Error Unit × Nat
  | some _ => (none, Error.check destroy_ret, 1)
  | none => (none, .ok (), 0)

/-- Embedding of `impl Drop for SensorListenerHandle`: runs `destroy` and
discards the result.  Returns the new slot and the number of native destroy
calls made. -/
def SensorListenerHandle.dropCleanup (destroy_ret : Int) (slot : SensorListenerHandle) :
    SensorListenerHandle × Nat :=
  let (slot2, _r, n) := SensorListenerHandle.destroy destroy_ret slot
  (slot2, n)

/-- A registered sensor listener (`SensorListener<T, U>`): the sensor it
was created from, the owned handler, and the owned native-listener slot. -/
structure SensorListener (U : Type) where
  sensor : Sensor
  handler : U
  handle : SensorListenerHandle
deriving DecidableEq

/-- Outcomes of the native calls made during listener construction and
destruction (external collaborator): the status `sensor_create_listener`
returns and the handle it writes, the status of
`sensor_listener_set_events_cb`, and the status of
`sensor_destroy_listener`. -/
structure NativeEnv where
  create_ret : Int
  create_handle : Nat
  set_cb_ret : Int
  destroy_ret : Int

/-- Embedding of `SensorListener::destroy`: destroys the inner slot; on
success returns the owned handler, on failure returns the handler together
with the error.  Also returns the number of native destroy calls made. -/
def SensorListener.destroy {U : Type} (destroy_ret : Int) (l : SensorListener U) :
    (Except (SensorListenerError U) U) × Nat :=
  let (_slot, r, n) := SensorListenerHandle.destroy destroy_ret l.handle
  match r with
  | .ok _ => (.ok l.handler, n)
  | .error error => (.error { error, handler := l.handler }, n)

/-- Embedding of `SensorListener::new`: creates the native listener, then
registers the callback; on a create failure the error is returned with the
handler directly; on a callback-registration failure the partially built
listener is destroyed and the handler recovered from the destroy result
(`unwrap_or_else(|e| e.handler)`), then returned with the registration
error.  Also returns the number of native destroy calls made during
construction. -/
def SensorListener.new {U : Type} (env : NativeEnv) (sensor : Sensor) (handler : U) :
    (Except (SensorListenerError U) (SensorListener U)) × Nat :=
  match Error.check env.create_ret with
  | .error error => (.error { error, handler }, 0)
  | .ok _ =>
      let self_ : SensorListener U :=
        { sensor, handler, handle := some env.create_handle }
      match Error.check env.set_cb_ret with
      | .error error =>
          let (res, n) := SensorListener.destroy env.destroy_ret self_
          let h := match res with
            | .ok h => h
            | .error e => e.handler
          (.error { error, handler := h }, n)
      | .ok _ => (.ok self_, 0)

/-- Embedding of `SensorListener::start`: reads the slot; `none` models the
`expect("No sensor listener handle")` panic branch, `some` the checked
native `sensor_listener_start` call with status `start_ret`.  The listener
state is not modified. -/
def SensorListener.start {U : Type} (start_ret : Int) (l : SensorListener U) :
    Option (Except Error Unit) :=
  match l.handle with
  | some _ => some (Error.check start_ret)
  | none => none

/-- Embedding of `SensorListener::stop`: same shape as `start` over the
native `sensor_listener_stop` call. -/
def SensorListener.stop {U : Type} (stop_ret : Int) (l : SensorListener U) :
    Option (Except Error Unit) :=
  match l.handle with
  | some _ => some (Error.check stop_ret)
  | none => none

/-- A destruction request against the inner slot: an explicit `destroy`
call or the implicit `Drop` cleanup.  Both take the handle out of the slot
and differ only in what happens to the returned result. -/
inductive TeardownOp where
  | explicitDestroy
  | dropCleanup
deriving DecidableEq, Repr

/-- Runs a sequence of destruction requests against a slot, counting the
native destroy calls made in total. -/
def runTeardown (destroy_ret : Int) :
    List TeardownOp → SensorListenerHandle → SensorListenerHandle × Nat
  | [], slot => (slot, 0)
  | _op :: ops, slot =>
      let (slot2, _r, n) := SensorListenerHandle.destroy destroy_ret slot
      let (slot3, m) := runTeardown destroy_ret ops slot2
      (slot3, n + m)

/-- Embedding of the callback trampoline `sensor_listener_handler`: for
each raw event of the batch, in array order, the event is decoded and the
handler invoked inside `panic::catch_unwind`, whose result is discarded
(`let _ = ...`), so the loop continues regardless.  The handler is a state
machine `step` returning its post-state and whether the invocation
panicked (a panicking invocation may leave the state arbitrarily mutated).
Returns the final handler state and the trace of decoded events passed to
the handler, in invocation order. -/
def sensor_listener_handler {σ E : Type} (decode : sensor_event_s → E)
    (step : σ → E → σ × Bool) (events : List sensor_event_s) (s : σ) :
    σ × List E :=
  events.foldl
    (fun acc ev =>
      let e := decode ev
      let (s2, _panicked) := step acc.1 e
      (s2, acc.2 ++ [e]))
    (s, [])

deriving instance DecidableEq for Except

/-- A valid (in-range, integral) raw value is reproduced exactly by the
saturating `as u32` cast. -/
theorem F32_toU32_natCast (n : ℕ) (h : (n : Int) ≤ u32max) :
    (F32.finite (n : ℚ)).toU32 = n := by
  have h0 : (0 : ℚ) ≤ (n : ℚ) := by positivity
  simp only [F32.toU32, ratTrunc, if_pos h0]
  rw [Int.floor_natCast, min_eq_right h, max_eq_right (Int.natCast_nonneg n)]
  exact Int.toNat_natCast n

/-- A valid (in-range, integral) raw value is reproduced exactly by the
saturating `as usize` cast. -/
theorem F32_toUsize_natCast (n : ℕ) (h : (n : Int) ≤ usizeMax) :
    (F32.finite (n : ℚ)).toUsize = n := by
  have h0 : (0 : ℚ) ≤ (n : ℚ) := by positivity
  simp only [F32.toUsize, ratTrunc, if_pos h0]
  rw [Int.floor_natCast, min_eq_right h, max_eq_right (Int.natCast_nonneg n)]
  exact Int.toNat_natCast n

/-- General trace shape of the trampoline fold: the invocation trace is the
accumulated prefix followed by the decodings of the remaining events, in
order, whatever the handler's states and panic flags are. -/
theorem trampoline_trace_aux {σ E : Type} (decode : sensor_event_s → E)
    (step : σ → E → σ × Bool) :
    ∀ (events : List sensor_event_s) (s : σ) (acc : List E),
      (events.foldl
        (fun acc ev =>
          let e := decode ev
          let (s2, _panicked) := step acc.1 e
          (s2, acc.2 ++ [e]))
        (s, acc)).2 = acc ++ events.map decode := by
  intro events
  induction events with
  | nil => intro s acc; simp
  | cons e es ih =>
      intro s acc
      simp only [List.foldl, List.map]
      rw [ih]
      simp

/-- Destruction requests against an already emptied slot never reach the
native API. -/
theorem runTeardown_none (destroy_ret : Int) :
    ∀ ops : List TeardownOp, runTeardown destroy_ret ops none = (none, 0) := by
  intro ops
  induction ops with
  | nil => rfl
  | cons op ops ih => simp [runTeardown, SensorListenerHandle.destroy, ih]

/-- C5: the mapping from native status codes to the error taxonomy is total
and never panics; success is returned exactly for the platform's success
code, each of the nine documented error codes maps to its variant, and every
other code maps to the opaque `Other` passthrough carrying the original
code. -/
theorem error_check_total_taxonomy :
    (∀ i : Int, Error.check i = .ok () ↔ i = SENSOR_ERROR_NONE) ∧
    (Error.check SENSOR_ERROR_INVALID_PARAMETER = .error .InvalidParameter ∧
     Error.check SENSOR_ERROR_OUT_OF_MEMORY = .error .OutOfMemory ∧
     Error.check SENSOR_ERROR_IO_ERROR = .error .IoError ∧
     Error.check SENSOR_ERROR_PERMISSION_DENIED = .error .PermissionDenied ∧
     Error.check SENSOR_ERROR_NOT_SUPPORTED = .error .NotSupported ∧
     Error.check SENSOR_ERROR_NO_DATA = .error .NoData ∧
     Error.check SENSOR_ERROR_NOT_NEED_CALIBRATION = .error .NotNeedCalibration ∧
     Error.check SENSOR_ERROR_OPERATION_FAILED = .error .OperationFailed ∧
     Error.check SENSOR_ERROR_NOT_AVAILABLE = .error .NotAvailable) ∧
    (∀ i : Int, i ≠ SENSOR_ERROR_NONE → i ≠ SENSOR_ERROR_INVALID_PARAMETER →
      i ≠ SENSOR_ERROR_OUT_OF_MEMORY → i ≠ SENSOR_ERROR_IO_ERROR →
      i ≠ SENSOR_ERROR_PERMISSION_DENIED → i ≠ SENSOR_ERROR_NOT_SUPPORTED →
      i ≠ SENSOR_ERROR_NO_DATA → i ≠ SENSOR_ERROR_NOT_NEED_CALIBRATION →
      i ≠ SENSOR_ERROR_OPERATION_FAILED → i ≠ SENSOR_ERROR_NOT_AVAILABLE →
      Error.check i = .error (.Other i)) := by
  refine ⟨?_, by decide, ?_⟩
  · intro i
    constructor
    · intro h
      by_contra hne
      simp only [Error.check, if_neg hne] at h
      split_ifs at h
    · intro h
      simp [Error.check, h]
  · intro i h0 h1 h2 h3 h4 h5 h6 h7 h8 h9
    simp only [Error.check, if_neg h0, if_neg h1, if_neg h2, if_neg h3, if_neg h4,
      if_neg h5, if_neg h6, if_neg h7, if_neg h8, if_neg h9]

/-- Witness for C5 at the concrete undocumented code 12345. -/
theorem error_check_total_taxonomy_witness :
    Error.check 12345 = .error (.Other 12345) :=
  error_check_total_taxonomy.2.2 12345 (by decide) (by decide) (by decide) (by decide)
    (by decide) (by decide) (by decide) (by decide) (by decide) (by decide)

/-- C9: the conversion from the native accuracy tag to `Accuracy` is total
and never panics: the five documented tags map to their variants and every
unrecognized tag falls back to `Undefined`; the rotation-vector decoder
reads its accuracy field through exactly this conversion, so it never fails
on an out-of-range tag. -/
theorem accuracy_fromTag_total :
    (Accuracy.fromTag SENSOR_DATA_ACCURACY_UNDEFINED = .Undefined ∧
     Accuracy.fromTag SENSOR_DATA_ACCURACY_BAD = .Bad ∧
     Accuracy.fromTag SENSOR_DATA_ACCURACY_NORMAL = .Normal ∧
     Accuracy.fromTag SENSOR_DATA_ACCURACY_GOOD = .Good ∧
     Accuracy.fromTag SENSOR_DATA_ACCURACY_VERYGOOD = .VeryGood) ∧
    (∀ a : Int, a ≠ SENSOR_DATA_ACCURACY_UNDEFINED → a ≠ SENSOR_DATA_ACCURACY_BAD →
      a ≠ SENSOR_DATA_ACCURACY_NORMAL → a ≠ SENSOR_DATA_ACCURACY_GOOD →
      a ≠ SENSOR_DATA_ACCURACY_VERYGOOD → Accuracy.fromTag a = .Undefined) ∧
    (∀ e : sensor_event_s,
      (RotationVectorEvent.from_event e).accuracy = Accuracy.fromTag e.accuracy) := by
  refine ⟨by decide, ?_, fun e => rfl⟩
  intro a h0 h1 h2 h3 h4
  simp only [Accuracy.fromTag, if_neg h0, if_neg h1, if_neg h2, if_neg h3, if_neg h4]

/-- Witness for C9 at the concrete out-of-range tag 55. -/
theorem accuracy_fromTag_total_witness :
    Accuracy.fromTag 55 = .Undefined :=
  accuracy_fromTag_total.2.1 55 (by decide) (by decide) (by decide) (by decide) (by decide)

/-- C6: every enum sub-state decoder (pedometer state, sleep-monitor state,
HRM batch state, proximity state) is total over all float inputs with an
explicit fallback for unrecognized codes: every unrecognized code yields
the `Unknown` variant (pedometer state 99 in particular), and the HRM batch
`Unknown` variant carries the raw float value as payload. -/
theorem substate_decoders_total :
    (∀ v : F32, v.toI32 ≠ SENSOR_PEDOMETER_STATE_UNKNOWN →
      v.toI32 ≠ SENSOR_PEDOMETER_STATE_STOP → v.toI32 ≠ SENSOR_PEDOMETER_STATE_WALK →
      v.toI32 ≠ SENSOR_PEDOMETER_STATE_RUN → PedometerState.fromF32 v = .Unknown) ∧
    PedometerState.fromF32 (F32.finite 99) = .Unknown ∧
    (∀ v : F32, v.toI32 ≠ SENSOR_SLEEP_STATE_UNKNOWN →
      v.toI32 ≠ SENSOR_SLEEP_STATE_WAKE → v.toI32 ≠ SENSOR_SLEEP_STATE_SLEEP →
      SleepMonitorState.fromF32 v = .Unknown) ∧
    (∀ v : F32, v.toI32 ≠ SENSOR_HRM_BATCH_STATE_NODATA_FLUSH →
      v.toI32 ≠ SENSOR_HRM_BATCH_STATE_VERYLOW_RELIABILITY →
      v.toI32 ≠ SENSOR_HRM_BATCH_STATE_LOW_RELIABILITY →
      v.toI32 ≠ SENSOR_HRM_BATCH_STATE_DETACHED_AUTO →
      v.toI32 ≠ SENSOR_HRM_BATCH_STATE_DETACHED →
      v.toI32 ≠ SENSOR_HRM_BATCH_STATE_DETECT_MOVE →
      v.toI32 ≠ SENSOR_HRM_BATCH_STATE_ATTACHED →
      v.toI32 ≠ SENSOR_HRM_BATCH_STATE_NONE →
      v.toI32 ≠ SENSOR_HRM_BATCH_STATE_OK →
      HeartRateMonitorBatchState.fromF32 v = .Unknown v) ∧
    (∀ e : sensor_event_s, (e.values 0).toU32 ≠ SENSOR_PROXIMITY_NEAR →
      (e.values 0).toU32 ≠ SENSOR_PROXIMITY_FAR →
      ProximityEvent.from_event e = .Unknown) := by
  refine ⟨?_, by decide, ?_, ?_, ?_⟩
  · intro v h0 h1 h2 h3
    simp only [PedometerState.fromF32, if_neg h0, if_neg h1, if_neg h2, if_neg h3]
  · intro v h0 h1 h2
    simp only [SleepMonitorState.fromF32, if_neg h0, if_neg h1, if_neg h2]
  · intro v h0 h1 h2 h3 h4 h5 h6 h7 h8
    simp only [HeartRateMonitorBatchState.fromF32, if_neg h0, if_neg h1, if_neg h2,
      if_neg h3, if_neg h4, if_neg h5, if_neg h6, if_neg h7, if_neg h8]
  · intro e h0 h1
    simp only [ProximityEvent.from_event, if_neg h0, if_neg h1]

/-- Witness for C6 at concrete unrecognized codes. -/
theorem substate_decoders_total_witness :
    SleepMonitorState.fromF32 (F32.finite 7) = .Unknown ∧
    HeartRateMonitorBatchState.fromF32 (F32.finite 99) = .Unknown (F32.finite 99) ∧
    ProximityEvent.from_event { accuracy := 0, timestamp := 0, values := mkValues [9] } =
      .Unknown ∧
    PedometerState.fromF32 (F32.finite 99) = .Unknown :=
  ⟨substate_decoders_total.2.2.1 (F32.finite 7) (by decide) (by decide) (by decide),
   substate_decoders_total.2.2.2.1 (F32.finite 99) (by decide) (by decide) (by decide)
     (by decide) (by decide) (by decide) (by decide) (by decide) (by decide),
   substate_decoders_total.2.2.2.2 { accuracy := 0, timestamp := 0, values := mkValues [9] }
     (by decide) (by decide),
   substate_decoders_total.1 (F32.finite 99) (by decide) (by decide) (by decide) (by decide)⟩

/-- C7: the Proximity decoder maps raw value 0.0 to `Near`, 1.0 to `Far`,
and 9.0 to `Unknown`. -/
theorem proximity_decode_concrete :
    ProximityEvent.from_event { accuracy := 0, timestamp := 0, values := mkValues [0] } =
      .Near ∧
    ProximityEvent.from_event { accuracy := 0, timestamp := 0, values := mkValues [1] } =
      .Far ∧
    ProximityEvent.from_event { accuracy := 0, timestamp := 0, values := mkValues [9] } =
      .Unknown := by
  decide

/-- C1: every supported descriptor's decode function is pure and total (a
Lean function over all raw events), copies the raw timestamp through, and
reads each remaining field from its fixed position of the raw value array
with units unconverted; integral counters read through the saturating casts
reproduce any valid in-range raw value exactly; and the concrete raw
accelerometer event with timestamp 1000 and values 1.0, 2.0, 3.0 decodes to
the record with those exact fields. -/
theorem decode_passthrough :
    (∀ e : sensor_event_s,
      AccelerometerEvent.from_event e =
        { timestamp := e.timestamp, x := e.values 0, y := e.values 1, z := e.values 2 } ∧
      GravityEvent.from_event e =
        { timestamp := e.timestamp, x := e.values 0, y := e.values 1, z := e.values 2 } ∧
      LinearAccelerationEvent.from_event e =
        { timestamp := e.timestamp, x := e.values 0, y := e.values 1, z := e.values 2 } ∧
      MagneticEvent.from_event e =
        { timestamp := e.timestamp, x := e.values 0, y := e.values 1, z := e.values 2 } ∧
      GyroscopeEvent.from_event e =
        { timestamp := e.timestamp, x := e.values 0, y := e.values 1, z := e.values 2 } ∧
      OrientationEvent.from_event e =
        { timestamp := e.timestamp, azimuth := e.values 0, pitch := e.values 1,
          roll := e.values 2 } ∧
      RotationVectorEvent.from_event e =
        { timestamp := e.timestamp, accuracy := Accuracy.fromTag e.accuracy,
          x := e.values 0, y := e.values 1, z := e.values 2, w := e.values 3 } ∧
      GyroscopeRotationVectorEvent.from_event e =
        { timestamp := e.timestamp, accuracy := Accuracy.fromTag e.accuracy,
          x := e.values 0, y := e.values 1, z := e.values 2, w := e.values 3 } ∧
      GeomagneticRotationVectorEvent.from_event e =
        { timestamp := e.timestamp, accuracy := Accuracy.fromTag e.accuracy,
          x := e.values 0, y := e.values 1, z := e.values 2, w := e.values 3 } ∧
      LightEvent.from_event e = { timestamp := e.timestamp, level := e.values 0 } ∧
      PressureEvent.from_event e = { timestamp := e.timestamp, pressure := e.values 0 } ∧
      UltravioletEvent.from_event e = { timestamp := e.timestamp, uv_index := e.values 0 } ∧
      TemperatureEvent.from_event e =
        { timestamp := e.timestamp, temperature := e.values 0 } ∧
      HumidityEvent.from_event e = { timestamp := e.timestamp, humidity := e.values 0 } ∧
      HeartRateMonitorEvent.from_event e = { timestamp := e.timestamp, bpm := e.values 0 } ∧
      HeartRateMonitorGreenLedEvent.from_event e =
        { timestamp := e.timestamp, green_light := e.values 0 } ∧
      HeartRateMonitorRedLedEvent.from_event e =
        { timestamp := e.timestamp, red_light := e.values 0 } ∧
      HeartRateMonitorInfraredLedEvent.from_event e =
        { timestamp := e.timestamp, infrared_light := e.values 0 } ∧
      SignificantMotionEvent.from_event e =
        { timestamp := e.timestamp, value := e.values 0 } ∧
      UncalibratedGyroscopeEvent.from_event e =
        { timestamp := e.timestamp, x := e.values 0, y := e.values 1, z := e.values 2,
          x_drift := e.values 3, y_drift := e.values 4, z_drift := e.values 5 } ∧
      UncalibratedMagneticEvent.from_event e =
        { timestamp := e.timestamp, x := e.values 0, y := e.values 1, z := e.values 2,
          x_bias := e.values 3, y_bias := e.values 4, z_bias := e.values 5 } ∧
      HeartRateMonitorBatchEvent.from_event e =
        { timestamp := e.timestamp,
          state := HeartRateMonitorBatchState.fromF32 (e.values 0),
          bpm := e.values 1, r_to_r_interval := e.values 2 } ∧
      HeartRateMonitorGreenLedBatchEvent.from_event e =
        { timestamp := e.timestamp, green_light := e.values 0, x := e.values 1,
          y := e.values 2, z := e.values 3, index := (e.values 4).toUsize } ∧
      PedometerEvent.from_event e =
        { timestamp := e.timestamp, steps := (e.values 0).toU32,
          walking_steps := (e.values 1).toU32, running_steps := (e.values 2).toU32,
          moving_distance := e.values 3, calories_burned := e.values 4,
          last_speed := e.values 5, last_stepping_frequency := e.values 6,
          last_state := PedometerState.fromF32 (e.values 7) } ∧
      SleepMonitorEvent.from_event e =
        { timestamp := e.timestamp,
          last_state := SleepMonitorState.fromF32 (e.values 0) }) ∧
    ((∀ (e : sensor_event_s) (n : ℕ), (n : Int) ≤ u32max →
        e.values 0 = F32.finite (n : ℚ) → (PedometerEvent.from_event e).steps = n) ∧
     (∀ (e : sensor_event_s) (n : ℕ), (n : Int) ≤ u32max →
        e.values 1 = F32.finite (n : ℚ) → (PedometerEvent.from_event e).walking_steps = n) ∧
     (∀ (e : sensor_event_s) (n : ℕ), (n : Int) ≤ u32max →
        e.values 2 = F32.finite (n : ℚ) → (PedometerEvent.from_event e).running_steps = n) ∧
     (∀ (e : sensor_event_s) (n : ℕ), (n : Int) ≤ usizeMax →
        e.values 4 = F32.finite (n : ℚ) →
        (HeartRateMonitorGreenLedBatchEvent.from_event e).index = n)) ∧
    AccelerometerEvent.from_event ⟨0, 1000, mkValues [1, 2, 3]⟩ =
      { timestamp := 1000, x := F32.finite 1, y := F32.finite 2, z := F32.finite 3 } := by
  refine ⟨?_, ⟨?_, ?_, ?_, ?_⟩, by decide⟩
  · intro e
    exact ⟨rfl, rfl, rfl, rfl, rfl, rfl, rfl, rfl, rfl, rfl, rfl, rfl, rfl, rfl, rfl,
      rfl, rfl, rfl, rfl, rfl, rfl, rfl, rfl, rfl, rfl⟩
  · intro e n h hv
    show (e.values 0).toU32 = n
    rw [hv]
    exact F32_toU32_natCast n h
  · intro e n h hv
    show (e.values 1).toU32 = n
    rw [hv]
    exact F32_toU32_natCast n h
  · intro e n h hv
    show (e.values 2).toU32 = n
    rw [hv]
    exact F32_toU32_natCast n h
  · intro e n h hv
    show (e.values 4).toUsize = n
    rw [hv]
    exact F32_toUsize_natCast n h

/-- Witness for C1: the valid-value cast clauses applied at a concrete
pedometer event (7 steps) and a concrete green-LED batch event (index 6). -/
theorem decode_passthrough_witness :
    (PedometerEvent.from_event ⟨0, 5, mkValues [7, 4, 3, 1, 2, 3, 4, 1]⟩).steps = 7 ∧
    (HeartRateMonitorGreenLedBatchEvent.from_event ⟨0, 5, mkValues [100, 1, 2, 3, 6]⟩).index
      = 6 :=
  ⟨decode_passthrough.2.1.1 _ 7 (by decide) (by decide),
   decode_passthrough.2.1.2.2.2 _ 6 (by decide) (by decide)⟩

/-- C2: for every batch of raw events delivered to the callback trampoline,
the user handler is invoked exactly once per event in array-index order
(the invocation trace is the ordered decoding of the batch), no matter
where the handler panics, because every invocation runs inside
`panic::catch_unwind` whose result is discarded; in particular a counting
handler that panics during its second invocation over a 3-event batch is
still invoked three times and receives the third event. -/
theorem trampoline_isolates_each_event :
    (∀ (σ E : Type) (decode : sensor_event_s → E) (step : σ → E → σ × Bool)
       (events : List sensor_event_s) (s : σ),
       (sensor_listener_handler decode step events s).2 = events.map decode) ∧
    (∀ (E : Type) (decode : sensor_event_s → E) (e1 e2 e3 : sensor_event_s),
       sensor_listener_handler decode (fun (c : Nat) (_ : E) => (c + 1, c == 1))
           [e1, e2, e3] 0 =
         (3, [decode e1, decode e2, decode e3])) := by
  constructor
  · intro σ E decode step events s
    exact trampoline_trace_aux decode step events s []
  · intro E decode e1 e2 e3
    rfl

/-- Witness for C2: a 3-event batch with a counting handler that panics on
its second invocation still produces three invocations, in array order. -/
theorem trampoline_isolates_each_event_witness :
    sensor_listener_handler (fun e => e.timestamp)
        (fun (c : Nat) (_ : Nat) => (c + 1, c == 1))
        [⟨0, 1, mkValues []⟩, ⟨0, 2, mkValues []⟩, ⟨0, 3, mkValues []⟩] 0 =
      (3, [1, 2, 3]) :=
  trampoline_isolates_each_event.2 Nat (fun e => e.timestamp)
    ⟨0, 1, mkValues []⟩ ⟨0, 2, mkValues []⟩ ⟨0, 3, mkValues []⟩

/-- C3: if `SensorListener::new` fails at any registration step, the
returned error carries the original handler value unchanged, and when the
native listener had already been created (the failure happened at callback
registration), the partially-constructed native resource is torn down by
exactly one native destroy call. -/
theorem new_failure_returns_handler {U : Type} (env : NativeEnv) (sensor : Sensor)
    (handler : U) (err : SensorListenerError U)
    (h : (SensorListener.new env sensor handler).1 = .error err) :
    err.handler = handler ∧
    (Error.check env.create_ret = .ok () →
      (SensorListener.new env sensor handler).2 = 1) := by
  cases hc : Error.check env.create_ret with
  | error e =>
      have hnew : SensorListener.new env sensor handler =
          (.error { error := e, handler }, 0) := by
        simp [SensorListener.new, hc]
      rw [hnew] at h
      simp only [Except.error.injEq] at h
      subst h
      exact ⟨rfl, fun hok => absurd hok (by simp)⟩
  | ok u =>
      cases hcb : Error.check env.set_cb_ret with
      | ok v =>
          have hnew : SensorListener.new env sensor handler =
              (.ok ⟨sensor, handler, some env.create_handle⟩, 0) := by
            simp [SensorListener.new, hc, hcb]
          rw [hnew] at h
          simp at h
      | error e =>
          cases hd : Error.check env.destroy_ret with
          | ok v =>
              have hnew : SensorListener.new env sensor handler =
                  (.error { error := e, handler }, 1) := by
                simp [SensorListener.new, hc, hcb, SensorListener.destroy,
                  SensorListenerHandle.destroy, hd]
              rw [hnew] at h
              simp only [Except.error.injEq] at h
              subst h
              exact ⟨rfl, fun _ => by rw [hnew]⟩
          | error ed =>
              have hnew : SensorListener.new env sensor handler =
                  (.error { error := e, handler }, 1) := by
                simp [SensorListener.new, hc, hcb, SensorListener.destroy,
                  SensorListenerHandle.destroy, hd]
              rw [hnew] at h
              simp only [Except.error.injEq] at h
              subst h
              exact ⟨rfl, fun _ => by rw [hnew]⟩

/-- Witness for C3: a callback-registration failure (invalid parameter)
returns the original handler value 42 and tears the native listener down
once. -/
theorem new_failure_returns_handler_witness :
    (({ error := .InvalidParameter, handler := 42 } : SensorListenerError Nat)).handler
        = 42 ∧
    (SensorListener.new ⟨0, 5, -22, 0⟩ ⟨1⟩ (42 : Nat)).2 = 1 := by
  have h := new_failure_returns_handler ⟨0, 5, -22, 0⟩ ⟨1⟩ (42 : Nat)
    { error := .InvalidParameter, handler := 42 } (by decide)
  exact ⟨h.1, h.2 (by decide)⟩

/-- C4: the native listener resource is destroyed at most once across every
interleaving of explicit destroy calls and implicit drop.  A successful
`new` followed immediately by `destroy` (without `start`) succeeds,
returns the original handler unchanged, and makes exactly one native
destroy call; any destruction request takes the handle out of the slot;
destroying an emptied slot is a no-op success with no native call (both for
a second explicit call and for drop-after-destroy); and any sequence of
destruction requests makes at most one native destroy call in total. -/
theorem native_listener_destroyed_at_most_once :
    (∀ (U : Type) (env : NativeEnv) (sensor : Sensor) (handler : U)
       (l : SensorListener U),
       (SensorListener.new env sensor handler).1 = .ok l →
       Error.check env.destroy_ret = .ok () →
       SensorListener.destroy env.destroy_ret l = (.ok handler, 1)) ∧
    (∀ (ret : Int) (slot : SensorListenerHandle),
       (SensorListenerHandle.destroy ret slot).1 = none) ∧
    (∀ ret : Int, SensorListenerHandle.destroy ret none = (none, .ok (), 0)) ∧
    (∀ (ret : Int) (slot : SensorListenerHandle),
       SensorListenerHandle.dropCleanup ret (SensorListenerHandle.destroy ret slot).1 =
         (none, 0)) ∧
    (∀ (ret : Int) (ops : List TeardownOp) (slot : SensorListenerHandle),
       (runTeardown ret ops slot).2 ≤ 1) := by
  have hslot : ∀ (ret : Int) (slot : SensorListenerHandle),
      (SensorListenerHandle.destroy ret slot).1 = none := by
    intro ret slot
    cases slot <;> rfl
  refine ⟨?_, hslot, fun ret => rfl, ?_, ?_⟩
  · intro U env sensor handler l h hd
    cases hc : Error.check env.create_ret with
    | error e =>
        have hnew : (SensorListener.new env sensor handler).1 =
            .error { error := e, handler } := by
          simp [SensorListener.new, hc]
        rw [hnew] at h
        simp at h
    | ok u =>
        cases hcb : Error.check env.set_cb_ret with
        | error e =>
            have hnew : (SensorListener.new env sensor handler).1 =
                .error { error := e, handler } := by
              simp [SensorListener.new, hc, hcb, SensorListener.destroy,
                SensorListenerHandle.destroy, hd]
            rw [hnew] at h
            simp at h
        | ok ucb =>
            have hnew : (SensorListener.new env sensor handler).1 =
                .ok ⟨sensor, handler, some env.create_handle⟩ := by
              simp [SensorListener.new, hc, hcb]
            rw [hnew] at h
            simp only [Except.ok.injEq] at h
            subst h
            simp [SensorListener.destroy, SensorListenerHandle.destroy, hd]
  · intro ret slot
    rw [hslot ret slot]
    rfl
  · intro ret ops slot
    cases slot with
    | none =>
        rw [runTeardown_none]
        exact Nat.zero_le 1
    | some v =>
        cases ops with
        | nil => exact Nat.zero_le 1
        | cons op ops =>
            simp [runTeardown, SensorListenerHandle.destroy, runTeardown_none]

/-- Witness for C4: a listener built by a fully successful `new` is
destroyed once with the handler 42 returned, and an explicit destroy
followed by a drop makes at most one native call. -/
theorem native_listener_destroyed_at_most_once_witness :
    SensorListener.destroy (0 : Int) (⟨⟨1⟩, 42, some 5⟩ : SensorListener Nat) =
      (.ok 42, 1) ∧
    (runTeardown 0 [.explicitDestroy, .dropCleanup] (some 5)).2 ≤ 1 :=
  ⟨native_listener_destroyed_at_most_once.1 Nat ⟨0, 5, 0, 0⟩ ⟨1⟩ 42 ⟨⟨1⟩, 42, some 5⟩
      (by decide) (by decide),
   native_listener_destroyed_at_most_once.2.2.2.2 0 [.explicitDestroy, .dropCleanup]
      (some 5)⟩

/-- C8: on a successful platform enumeration reporting n sensors,
`get_list` returns exactly n handles copied from the platform-allocated
array in array order and frees that array exactly once, including when n is
zero; on a non-success status it returns the mapped error without touching
the array (no free). -/
theorem get_list_copies_and_frees (ret : Int) (sensor_count : Int) (arr : Nat → Nat) :
    (∀ u : Unit, Error.check ret = .ok u →
      ∃ l : List Sensor,
        Sensor.get_list ret sensor_count arr = (.ok l, 1) ∧
        l.length = sensor_count.toNat ∧
        ∀ i : ℕ, i < sensor_count.toNat → l.get? i = some (Sensor.mk (arr i))) ∧
    (∀ e : Error, Error.check ret = .error e →
      Sensor.get_list ret sensor_count arr = (.error e, 0)) := by
  constructor
  · intro u hok
    refine ⟨(List.range sensor_count.toNat).map fun i => Sensor.mk (arr i), ?_, ?_, ?_⟩
    · simp [Sensor.get_list, hok]
    · simp
    · intro i hi
      rw [List.get?_map, List.get?_range hi]
      rfl
  · intro e herr
    simp [Sensor.get_list, herr]

/-- Witness for C8: a successful enumeration of two handles (freed once)
and a failed one (invalid parameter, no free). -/
theorem get_list_copies_and_frees_witness :
    Sensor.get_list 0 2 (fun i => 10 + i) = (.ok [⟨10⟩, ⟨11⟩], 1) ∧
    Sensor.get_list (-22) 2 (fun i => 10 + i) = (.error .InvalidParameter, 0) := by
  have h := (get_list_copies_and_frees 0 2 (fun i => 10 + i)).1 () (by decide)
  exact ⟨by decide,
    (get_list_copies_and_frees (-22) 2 (fun i => 10 + i)).2 .InvalidParameter (by decide)⟩

/-- C10: a listener obtained from a successful `new` holds a native handle
in its slot, and `start` and `stop` read but never empty the slot, so their
missing-handle panic branch is unreachable and both can be called any
number of times, each call reaching the checked native call. -/
theorem handle_slot_always_some {U : Type} (env : NativeEnv) (sensor : Sensor)
    (handler : U) (l : SensorListener U)
    (h : (SensorListener.new env sensor handler).1 = .ok l) :
    l.handle = some env.create_handle ∧
    (∀ ret : Int, SensorListener.start ret l = some (Error.check ret)) ∧
    (∀ ret : Int, SensorListener.stop ret l = some (Error.check ret)) := by
  have hh : l.handle = some env.create_handle := by
    cases hc : Error.check env.create_ret with
    | error e =>
        have hnew : (SensorListener.new env sensor handler).1 =
            .error { error := e, handler } := by
          simp [SensorListener.new, hc]
        rw [hnew] at h
        simp at h
    | ok u =>
        cases hcb : Error.check env.set_cb_ret with
        | error e =>
            cases hd : Error.check env.destroy_ret with
            | ok v =>
                have hnew : (SensorListener.new env sensor handler).1 =
                    .error { error := e, handler } := by
                  simp [SensorListener.new, hc, hcb, SensorListener.destroy,
                    SensorListenerHandle.destroy, hd]
                rw [hnew] at h
                simp at h
            | error ed =>
                have hnew : (SensorListener.new env sensor handler).1 =
                    .error { error := e, handler } := by
                  simp [SensorListener.new, hc, hcb, SensorListener.destroy,
                    SensorListenerHandle.destroy, hd]
                rw [hnew] at h
                simp at h
        | ok ucb =>
            have hnew : (SensorListener.new env sensor handler).1 =
                .ok ⟨sensor, handler, some env.create_handle⟩ := by
              simp [SensorListener.new, hc, hcb]
            rw [hnew] at h
            simp only [Except.ok.injEq] at h
            subst h
            rfl
  refine ⟨hh, fun ret => ?_, fun ret => ?_⟩
  · simp [SensorListener.start, hh]
  · simp [SensorListener.stop, hh]

/-- Witness for C10: the listener produced by an all-success `new` has its
slot filled and `start`/`stop` take the native-call branch. -/
theorem handle_slot_always_some_witness :
    ((⟨⟨1⟩, 42, some 5⟩ : SensorListener Nat)).handle = some 5 ∧
    SensorListener.start 0 (⟨⟨1⟩, 42, some 5⟩ : SensorListener Nat) =
      some (Error.check 0) := by
  have h := handle_slot_always_some ⟨0, 5, 0, 0⟩ ⟨1⟩ (42 : Nat) ⟨⟨1⟩, 42, some 5⟩
    (by decide)
  exact ⟨h.1, h.2.1 0⟩

end Sensors
